import Mathlib

/-!
Verification of the sentiment-analysis session controller in `src/app.js`.

The source file concatenates two revisions ("variant 1" and "variant 2") of
the same browser application.  We shallowly embed both variants:

* JavaScript values that may be `undefined` become `Option`,
* floating-point scores become `ℚ` (all scores of interest are exact),
* the single suspension point of each `async` analyze call (the `await` on
  the classify pipeline) splits the call into a *start* phase and a *finish*
  phase, with the classify outcome passed in as an oracle,
* DOM writes and status messages become an explicit event list.

Components that the specification attributes to source revisions that are
not part of `src/` (the marker-table label normalizer and the ordered
engine-fallback acquisition loop) are modelled from the specification and
marked as such in their doc strings.
-/

/-- The three canonical sentiment categories of the spec. -/
inductive SentimentCategory where
  | POSITIVE
  | NEGATIVE
  | NEUTRAL
deriving DecidableEq

/-- One ranked classification result: a raw label with a score. -/
structure LabelScore where
  label : String
  score : ℚ
deriving DecidableEq

/-- Outcome of the awaited `sentimentPipeline(review)` call: either a result
list or a thrown error (message abstracted). -/
inductive ClassifyOutcome where
  | ok (results : List LabelScore)
  | err (msg : String)
deriving DecidableEq

/-- A classify outcome that lands in the `catch` block of either variant:
either the promise rejected, or the result list is empty (both variants then
dereference `result[0]` / throw explicitly, which is caught). -/
def classifyFailed : ClassifyOutcome → Bool
  | .ok [] => true
  | .ok (_ :: _) => false
  | .err _ => true

/-- JavaScript substring containment, `hay.includes(needle)`. -/
def containsSub (hay needle : String) : Bool :=
  (List.range (hay.toList.length + 1)).any fun i =>
    List.isPrefixOf needle.toList (hay.toList.drop i)

/-- Random index selection, `Math.floor(rand * n)`, where `rand` is the
value returned by `Math.random()`. -/
def selectedIdx (n : ℕ) (rand : ℚ) : ℕ :=
  (⌊rand * (n : ℚ)⌋).toNat

/-! ## Variant 1 (first half of `src/app.js`) -/

/-- A parsed TSV row as variant 1 sees it: only the `text` column is read,
and it may be absent (`undefined`). -/
structure RowV1 where
  text : Option String
deriving DecidableEq

/-- Variant 1 review extraction:
`results.data.map(row => row.text).filter(text => text && text.trim().length > 0)`. -/
def extractV1 (rows : List RowV1) : List String :=
  (rows.map (fun r => r.text)).filterMap fun t? =>
    match t? with
    | some t => if t.trim.length > 0 then some t else none
    | none => none

/-- Failure modes of variant 1's `loadReviews`. -/
inductive LoadErrorV1 where
  | parseFailed
  | corpusEmpty
deriving DecidableEq

/-- Variant 1 `loadReviews` complete-callback: reject with a parse error when
the parsed data is absent or empty, extract and filter otherwise, and reject
with `corpusEmpty` (the `No valid reviews found` rejection) when the filtered
list is empty.  The argument is the parse result delivered by the external
TSV parser (`none` = no data). -/
def loadReviewsV1 (parsed : Option (List RowV1)) : Except LoadErrorV1 (List String) :=
  match parsed with
  | some rows =>
      if rows.length > 0 then
        let revs := extractV1 rows
        if revs.length > 0 then .ok revs else .error .corpusEmpty
      else .error .parseFailed
  | none => .error .parseFailed

/-- Variant 1 application state: the module-level mutable variables. -/
structure StateV1 where
  reviews : List String
  modelReady : Bool
  isAnalyzing : Bool
deriving DecidableEq

/-- Observable output of variant 1: status messages and DOM writes. -/
inductive EventV1 where
  | status (msg : String) (kind : String)
  | reviewShown (text : String)
  | sentimentShown (displayLabel : String) (confidencePercent : ℚ)
deriving DecidableEq

/-- Variant 1 `displaySentiment` label mapping: returns the displayed label
and the confidence percentage. -/
def displaySentiment (label : String) (confidence : ℚ) : String × ℚ :=
  if containsSub label "POSITIVE" || label == "POSITIVE" then
    ("POSITIVE", confidence * 100)
  else if containsSub label "NEGATIVE" || label == "NEGATIVE" then
    ("NEGATIVE", confidence * 100)
  else
    ("NEUTRAL", confidence * 100)

/-- Variant 1 analyze-button click handler, up to the `await` on the
pipeline: the three guards, then busy flag, random selection, review display
and status.  Returns the new state, the emitted events, and `some review`
when the call proceeds to classification (`none` = the handler returned). -/
def clickStartV1 (s : StateV1) (rand : ℚ) : StateV1 × List EventV1 × Option String :=
  if !s.modelReady then
    (s, [.status "Model is still loading. Please wait..." "error"], none)
  else if s.isAnalyzing then
    (s, [], none)
  else if s.reviews.length == 0 then
    (s, [.status "No reviews available to analyze" "error"], none)
  else
    let review := s.reviews.getD (selectedIdx s.reviews.length rand) ""
    ({ s with isAnalyzing := true },
     [.reviewShown review, .status "Analyzing sentiment..." "loading"],
     some review)

/-- Variant 1 click handler from the `await` on: success path displays the
top result, failure path (rejection, or empty result list throwing
`No sentiment result returned`) shows an error status and
`displaySentiment('ERROR', 0)`; the `finally` block resets `isAnalyzing`. -/
def clickFinishV1 (s : StateV1) (o : ClassifyOutcome) : StateV1 × List EventV1 :=
  match o with
  | .ok (first :: _) =>
      let d := displaySentiment first.label first.score
      ({ s with isAnalyzing := false },
       [.sentimentShown d.1 d.2, .status "Analysis complete!" "success"])
  | .ok [] =>
      ({ s with isAnalyzing := false },
       [.status "Analysis error" "error",
        .sentimentShown (displaySentiment "ERROR" 0).1 (displaySentiment "ERROR" 0).2])
  | .err _ =>
      ({ s with isAnalyzing := false },
       [.status "Analysis error" "error",
        .sentimentShown (displaySentiment "ERROR" 0).1 (displaySentiment "ERROR" 0).2])

/-- A whole variant-1 click-handler invocation, with the classify outcome
supplied as an oracle (unused when a guard rejects the call). -/
def clickHandlerV1 (s : StateV1) (rand : ℚ) (o : ClassifyOutcome) : StateV1 × List EventV1 :=
  match clickStartV1 s rand with
  | (_, evs, none) => (s, evs)
  | (s1, evs, some _) =>
      let f := clickFinishV1 s1 o
      (f.1, evs ++ f.2)

/-- Variant 1 `initModel`: on successful pipeline acquisition set
`modelReady`; on failure report an error and leave `modelReady` false. -/
def initModel (modelOutcome : Option Unit) (s : StateV1) : StateV1 × List EventV1 :=
  match modelOutcome with
  | some _ => ({ s with modelReady := true }, [.status "Model ready! You can now analyze reviews." "success"])
  | none => (s, [.status "Error loading model" "error"])

/-- Variant 1 `initApp`: load the corpus; on load failure report it and
return (the model is never initialized); otherwise store the reviews and run
`initModel`. -/
def initApp (parsed : Option (List RowV1)) (modelOutcome : Option Unit) :
    StateV1 × List EventV1 :=
  let s0 : StateV1 := { reviews := [], modelReady := false, isAnalyzing := false }
  match loadReviewsV1 parsed with
  | .error _ => (s0, [.status "Error loading reviews" "error"])
  | .ok revs =>
      let s1 : StateV1 := { s0 with reviews := revs }
      let m := initModel modelOutcome s1
      (m.1, .status "Loaded reviews successfully" "success" :: m.2)

/-- Variant 1 readiness: `analyze` proceeds past its guards exactly when the
model is ready and the corpus is non-empty (and the controller is idle). -/
def readyV1 (s : StateV1) : Bool :=
  s.modelReady && !(s.reviews.length == 0)

/-! ## Variant 2 (second half of `src/app.js`) -/

/-- A parsed TSV row as variant 2 sees it: `summary` (primary) and `text`
(fallback) columns, either possibly absent. -/
structure RowV2 where
  summary : Option String
  text : Option String
deriving DecidableEq

/-- JavaScript `a || b` on possibly-undefined strings: `a` when it is a
non-empty (truthy) string, `b` otherwise. -/
def jsOr (a b : Option String) : Option String :=
  match a with
  | some s => if s.length > 0 then some s else b
  | none => b

/-- Variant 2 review extraction:
`row.summary?.trim() || row.text?.trim()` mapped over the rows, then
`filter(review => review && review.length > 0)`. -/
def extractV2 (rows : List RowV2) : List String :=
  (rows.map fun r => jsOr (r.summary.map String.trim) (r.text.map String.trim)).filterMap
    fun v =>
      match v with
      | some s => if s.length > 0 then some s else none
      | none => none

/-- The row-extraction contract as the spec words it: the trimmed primary
field when non-empty, else the trimmed fallback field when non-empty, else
the row is discarded.  Stated separately from `extractV2` so that the code
can be proved to refine the spec. -/
def pickReviewSpec (r : RowV2) : Option String :=
  match r.summary with
  | some s =>
      if s.trim.length > 0 then some s.trim
      else
        match r.text with
        | some t => if t.trim.length > 0 then some t.trim else none
        | none => none
  | none =>
      match r.text with
      | some t => if t.trim.length > 0 then some t.trim else none
      | none => none

/-- Variant 2 application state: the module-level mutable variables
(`sentimentPipeline` abstracted to presence). -/
structure StateV2 where
  isAnalyzing : Bool
  sentimentPipeline : Option Unit
  reviews : List String
deriving DecidableEq

/-- Observable output of variant 2. -/
inductive EventV2 where
  | statusSet (msg : String) (kind : String)
  | reviewShown (text : String)
  | resultShown (label : String) (confidencePercent : ℚ)
  | errorShown
deriving DecidableEq

/-- Variant 2 label mapping (the `if/else` chain on `result[0]`): binary
polarity labels above the 0.5 threshold map to POSITIVE/NEGATIVE with the raw
score; everything else is NEUTRAL with the score rescaled to
`|score - 0.5| * 2`. -/
def mapSentimentV2 (label : String) (score : ℚ) : SentimentCategory × ℚ :=
  if (label == "LABEL_1" || label == "POSITIVE") && decide (score > 1/2) then
    (.POSITIVE, score)
  else if (label == "LABEL_0" || label == "NEGATIVE") && decide (score > 1/2) then
    (.NEGATIVE, score)
  else
    (.NEUTRAL, |score - 1/2| * 2)

/-- Display text of a canonical category (variant 2 writes it into
`sentimentLabel.textContent`). -/
def categoryText : SentimentCategory → String
  | .POSITIVE => "POSITIVE"
  | .NEGATIVE => "NEGATIVE"
  | .NEUTRAL => "NEUTRAL"

/-- Variant 2 `analyzeRandomReview` up to the `await` on the pipeline: the
combined guard `isAnalyzing || !sentimentPipeline || reviews.length === 0`
makes the call a silent no-op; otherwise the busy flag is set, a random
review is selected and displayed.  `none` = the call returned doing
nothing. -/
def analyzeStartV2 (s : StateV2) (rand : ℚ) :
    Option (StateV2 × String × List EventV2) :=
  if s.isAnalyzing || s.sentimentPipeline.isNone || s.reviews.length == 0 then
    none
  else
    let review := s.reviews.getD (selectedIdx s.reviews.length rand) ""
    some ({ s with isAnalyzing := true },
          review,
          [.reviewShown review,
           .statusSet "Analyzing sentiment locally in browser..." "loading"])

/-- Variant 2 `analyzeRandomReview` from the `await` on: the success path
maps the top result and reports it; a rejection, or an empty result list
(whose `result[0].label` dereference throws), lands in `catch`, which reports
the error and writes the `Error` placeholder; `finally` resets the busy flag
and re-enables the button. -/
def analyzeFinishV2 (s : StateV2) (o : ClassifyOutcome) : StateV2 × List EventV2 :=
  match o with
  | .ok (first :: _) =>
      let m := mapSentimentV2 first.label first.score
      ({ s with isAnalyzing := false },
       [.resultShown (categoryText m.1) (m.2 * 100),
        .statusSet "Analysis complete!" "ready"])
  | .ok [] =>
      ({ s with isAnalyzing := false },
       [.statusSet "Analysis error" "error", .errorShown])
  | .err _ =>
      ({ s with isAnalyzing := false },
       [.statusSet "Analysis error" "error", .errorShown])

/-- A whole variant-2 `analyzeRandomReview` invocation, with the classify
outcome supplied as an oracle (unused when the guard rejects the call). -/
def analyzeRandomReview (s : StateV2) (rand : ℚ) (o : ClassifyOutcome) :
    StateV2 × List EventV2 :=
  match analyzeStartV2 s rand with
  | none => (s, [])
  | some (s1, _, evs) =>
      let f := analyzeFinishV2 s1 o
      (f.1, evs ++ f.2)

/-! ## Components modelled from the spec

The spec distils four source revisions; only two are under `src/`.  The
marker-table normalizer (star-rating and emotion vocabularies) and the
ordered engine-fallback loop belong to the revisions that are absent, so they
are modelled from the spec's words. -/

/-- Modelled from the spec: the positive-polarity marker table of §4.1
(`"positive"`, 4-or-5-star rating markers, positive-emotion markers such as
`"joy"`); the source revisions implementing it are not under `src/`. -/
def positiveMarkers : List String :=
  ["positive", "4 star", "5 star", "joy"]

/-- Modelled from the spec: the negative-polarity marker table of §4.1
(`"negative"`, 1-or-2-star rating markers, negative-emotion markers such as
`"sadness"`, `"anger"`, `"fear"`); the source revisions implementing it are
not under `src/`. -/
def negativeMarkers : List String :=
  ["negative", "1 star", "2 star", "sadness", "anger", "fear"]

/-- Case-insensitive equals-or-contains test of a raw label against a marker
table (§4.1: "case-insensitively equals or contains"). -/
def matchesMarker (rawLabel : String) (markers : List String) : Bool :=
  markers.any fun m => containsSub rawLabel.toLower m.toLower

/-- The canonical result of `LabelNormalizer.normalize`. -/
structure CanonicalSentiment where
  category : SentimentCategory
  confidence : ℚ
deriving DecidableEq

/-- Modelled from the spec: `LabelNormalizer.normalize` of §4.1 with ordered
rule evaluation (first match wins); the source revisions carrying the full
marker tables are not under `src/` (of the two revisions in `src/`, variant 2
implements only the binary-polarity rows of the tables, variant 1 applies no
score threshold). -/
def LabelNormalizer.normalize (rawLabel : String) (rawScore : ℚ) : CanonicalSentiment :=
  if matchesMarker rawLabel positiveMarkers && decide (rawScore > 1/2) then
    ⟨.POSITIVE, rawScore⟩
  else if matchesMarker rawLabel negativeMarkers && decide (rawScore > 1/2) then
    ⟨.NEGATIVE, rawScore⟩
  else
    ⟨.NEUTRAL, |rawScore - 1/2| * 2⟩

/-- Engine-initialization failure of §7. -/
inductive InitError where
  | NoEngineAvailable
deriving DecidableEq

/-- Modelled from the spec: `InferenceGateway.initialize` of §4.3 — attempt
the candidates in order, keep the first success, fail with
`NoEngineAvailable` on exhaustion; the source revisions carrying the
multi-candidate fallback are not under `src/` (each revision in `src/`
attempts a single hard-coded engine). `acquire` is the fallible acquisition
of one engine identifier. -/
def InferenceGateway.initEngine (acquire : String → Option String) :
    List String → Except InitError String
  | [] => .error .NoEngineAvailable
  | c :: rest =>
      match acquire c with
      | some e => .ok e
      | none => InferenceGateway.initEngine acquire rest

/-! ## Helper lemmas -/

/-- The random index `Math.floor(rand * n)` is in bounds for a non-empty list. -/
lemma selectedIdx_lt (n : ℕ) (hn : 0 < n) (rand : ℚ) (h0 : 0 ≤ rand) (h1 : rand < 1) :
    selectedIdx n rand < n := by
  have hcast : (0 : ℚ) < (n : ℚ) := by exact_mod_cast hn
  have hmul : rand * (n : ℚ) < (n : ℚ) := by
    calc rand * (n : ℚ) < 1 * (n : ℚ) := by exact mul_lt_mul_of_pos_right h1 hcast
    _ = (n : ℚ) := one_mul _
  have hfl : ⌊rand * (n : ℚ)⌋ < (n : ℤ) := Int.floor_lt.mpr (by exact_mod_cast hmul)
  have hnn : (0 : ℤ) ≤ ⌊rand * (n : ℚ)⌋ :=
    Int.floor_nonneg.mpr (mul_nonneg h0 (le_of_lt hcast))
  unfold selectedIdx
  omega

/-- Any in-bounds `getD` access returns a member of the list. -/
lemma getD_mem_of_lt {α : Type} {l : List α} {i : ℕ} (h : i < l.length) (d : α) :
    l.getD i d ∈ l := by
  rw [List.getD_eq_getElem?_getD, List.getElem?_eq_getElem h]
  exact List.getElem_mem h

/-- A `filterMap` keeps exactly the elements on which `f` hits. -/
lemma length_filterMap_countP {α β : Type} (f : α → Option β) (l : List α) :
    (l.filterMap f).length = l.countP fun a => (f a).isSome := by
  induction l with
  | nil => rfl
  | cons a rest ih =>
      cases hf : f a with
      | none => simp [List.filterMap_cons, hf, List.countP_cons, ih]
      | some b => simp [List.filterMap_cons, hf, List.countP_cons, ih]

/-- Variant 2's `finally` block only resets the busy flag. -/
lemma analyzeFinishV2_fst (s : StateV2) (o : ClassifyOutcome) :
    (analyzeFinishV2 s o).1 = { s with isAnalyzing := false } := by
  cases o with
  | ok results => cases results <;> rfl
  | err m => rfl

/-- Shape of a successful `analyzeStartV2` call: the guard is false and busy is set. -/
lemma analyzeStartV2_some {s s1 : StateV2} {rand : ℚ} {rev : String} {evs : List EventV2}
    (h : analyzeStartV2 s rand = some (s1, rev, evs)) :
    s.isAnalyzing = false ∧ s.sentimentPipeline.isNone = false ∧
    (s.reviews.length == 0) = false ∧ s1 = { s with isAnalyzing := true } ∧
    rev = s.reviews.getD (selectedIdx s.reviews.length rand) "" := by
  by_cases hg : (s.isAnalyzing || s.sentimentPipeline.isNone || s.reviews.length == 0) = true
  · rw [analyzeStartV2, if_pos hg] at h
    exact absurd h (by simp)
  · rw [analyzeStartV2, if_neg hg] at h
    simp only [Bool.or_eq_true, not_or, Bool.not_eq_true] at hg
    obtain ⟨⟨hb, hp⟩, hlen⟩ := hg
    simp only [Option.some.injEq, Prod.mk.injEq] at h
    obtain ⟨h1, h2, _⟩ := h
    exact ⟨hb, hp, hlen, h1.symm, h2.symm⟩

/-- A successful variant 1 load never returns an empty review list. -/
lemma loadReviewsV1_ok_ne_nil {parsed : Option (List RowV1)} {revs : List String}
    (h : loadReviewsV1 parsed = .ok revs) : revs ≠ [] := by
  cases parsed with
  | none => exact absurd h (by simp [loadReviewsV1])
  | some rows =>
      rw [loadReviewsV1] at h
      by_cases hlen : rows.length > 0
      · rw [if_pos hlen] at h
        by_cases hrev : (extractV1 rows).length > 0
        · rw [if_pos hrev] at h
          have hex : extractV1 rows = revs := by simpa using h
          intro hnil
          rw [hex, hnil] at hrev
          exact absurd hrev (by simp)
        · rw [if_neg hrev] at h
          exact absurd h (by simp)
      · rw [if_neg hlen] at h
        exact absurd h (by simp)

/-! ## Claim theorems -/

/-- C2: for every raw label and raw score in [0,1], `normalize` returns
POSITIVE with confidence equal to the raw score when the label
case-insensitively matches a positive marker and the score exceeds 0.5, and
NEGATIVE with confidence equal to the raw score when the label matches a
negative marker (and, the rules being evaluated in order, no positive marker)
and the score exceeds 0.5; in particular `normalize("POSITIVE", 0.92)` yields
{POSITIVE, 0.92} and `normalize("1 star", 0.8)` yields {NEGATIVE, 0.8}. -/
theorem C2_normalize_polar_rules (rawLabel : String) (rawScore : ℚ)
    (h0 : 0 ≤ rawScore) (h1 : rawScore ≤ 1) :
    (matchesMarker rawLabel positiveMarkers = true → 1/2 < rawScore →
      LabelNormalizer.normalize rawLabel rawScore = ⟨.POSITIVE, rawScore⟩) ∧
    (matchesMarker rawLabel negativeMarkers = true →
      matchesMarker rawLabel positiveMarkers = false → 1/2 < rawScore →
      LabelNormalizer.normalize rawLabel rawScore = ⟨.NEGATIVE, rawScore⟩) ∧
    LabelNormalizer.normalize "POSITIVE" (92/100) = ⟨.POSITIVE, 92/100⟩ ∧
    LabelNormalizer.normalize "1 star" (8/10) = ⟨.NEGATIVE, 8/10⟩ := by
  refine ⟨?_, ?_, ?_, ?_⟩
  · intro hm hs
    rw [LabelNormalizer.normalize, if_pos]
    rw [hm, Bool.true_and, decide_eq_true_eq]
    exact hs
  · intro hm hnp hs
    rw [LabelNormalizer.normalize, if_neg, if_pos]
    · rw [hm, Bool.true_and, decide_eq_true_eq]
      exact hs
    · rw [hnp, Bool.false_and]
      simp
  · with_unfolding_all decide
  · with_unfolding_all decide

/-- C2 witness: the rules fire at the spec's own example. -/
theorem C2_normalize_polar_rules_witness :
    LabelNormalizer.normalize "POSITIVE" (92/100) = ⟨.POSITIVE, 92/100⟩ :=
  (C2_normalize_polar_rules "POSITIVE" (92/100)
    (by with_unfolding_all decide) (by with_unfolding_all decide)).2.2.1

/-- C3: when neither the positive rule nor the negative rule applies,
`normalize` returns NEUTRAL with confidence `|rawScore - 0.5| * 2`; in
particular `normalize("joy", 0.3)` yields {NEUTRAL, 0.4}.  The same neutral
rescale is implemented verbatim by variant 2's mapping in `src/app.js`. -/
theorem C3_normalize_neutral_rule :
    (∀ (rawLabel : String) (rawScore : ℚ),
      ¬(matchesMarker rawLabel positiveMarkers = true ∧ 1/2 < rawScore) →
      ¬(matchesMarker rawLabel negativeMarkers = true ∧ 1/2 < rawScore) →
      LabelNormalizer.normalize rawLabel rawScore =
        ⟨.NEUTRAL, |rawScore - 1/2| * 2⟩) ∧
    LabelNormalizer.normalize "joy" (3/10) = ⟨.NEUTRAL, 2/5⟩ ∧
    (∀ (label : String) (score : ℚ),
      ¬((label = "LABEL_1" ∨ label = "POSITIVE") ∧ 1/2 < score) →
      ¬((label = "LABEL_0" ∨ label = "NEGATIVE") ∧ 1/2 < score) →
      mapSentimentV2 label score = (.NEUTRAL, |score - 1/2| * 2)) := by
  refine ⟨?_, by with_unfolding_all decide, ?_⟩
  · intro rawLabel rawScore hpos hneg
    rw [LabelNormalizer.normalize, if_neg, if_neg]
    · simp only [Bool.and_eq_true, decide_eq_true_eq]
      exact hneg
    · simp only [Bool.and_eq_true, decide_eq_true_eq]
      exact hpos
  · intro label score hpos hneg
    rw [mapSentimentV2, if_neg, if_neg]
    · simp only [Bool.and_eq_true, Bool.or_eq_true, beq_iff_eq, decide_eq_true_eq]
      exact hneg
    · simp only [Bool.and_eq_true, Bool.or_eq_true, beq_iff_eq, decide_eq_true_eq]
      exact hpos

/-- C3 witness: the neutral rescale fires at the spec's own example. -/
theorem C3_normalize_neutral_rule_witness :
    LabelNormalizer.normalize "joy" (3/10) = ⟨.NEUTRAL, 2/5⟩ ∧
    mapSentimentV2 "joy" (3/10) = (.NEUTRAL, |(3:ℚ)/10 - 1/2| * 2) :=
  ⟨C3_normalize_neutral_rule.2.1,
   C3_normalize_neutral_rule.2.2 "joy" (3/10)
     (by with_unfolding_all decide) (by with_unfolding_all decide)⟩

/-- C4: engine initialization attempts the candidate identifiers one at a
time in order, moving to the next only if the previous failed and stopping at
the first success; when every candidate fails it fails with
`NoEngineAvailable` and never yields an engine. -/
theorem C4_gateway_ordered_fallback (acquire : String → Option String)
    (candidates : List String) :
    ((∀ c ∈ candidates, acquire c = none) →
      InferenceGateway.initEngine acquire candidates = .error .NoEngineAvailable) ∧
    (∀ e, InferenceGateway.initEngine acquire candidates = .ok e →
      ∃ i, ∃ hi : i < candidates.length,
        acquire (candidates.get ⟨i, hi⟩) = some e ∧
        ∀ j, ∀ hj : j < candidates.length, j < i →
          acquire (candidates.get ⟨j, hj⟩) = none) := by
  induction candidates with
  | nil =>
      refine ⟨fun _ => rfl, fun e h => ?_⟩
      rw [InferenceGateway.initEngine] at h
      exact absurd h (by simp)
  | cons c rest ih =>
      constructor
      · intro hall
        have hc : acquire c = none := hall c (List.mem_cons_self c rest)
        rw [InferenceGateway.initEngine, hc]
        exact ih.1 fun x hx => hall x (List.mem_cons_of_mem c hx)
      · intro e h
        cases hc : acquire c with
        | some e2 =>
            rw [InferenceGateway.initEngine, hc] at h
            have he : e2 = e := by
              have := h
              simp only [Except.ok.injEq] at this
              exact this
            refine ⟨0, by simp, by simpa [he] using hc, ?_⟩
            intro j hj hj0
            exact absurd hj0 (Nat.not_lt_zero j)
        | none =>
            rw [InferenceGateway.initEngine, hc] at h
            obtain ⟨i, hi, hacq, hprev⟩ := ih.2 e h
            refine ⟨i + 1, Nat.succ_lt_succ hi, by simpa using hacq, ?_⟩
            intro j hj hji
            cases j with
            | zero => simpa using hc
            | succ k =>
                have hk : k < rest.length := Nat.lt_of_succ_lt_succ hj
                have := hprev k hk (Nat.lt_of_succ_lt_succ hji)
                simpa using this

/-- C4 witness: with both candidates failing, initialization is exhausted. -/
theorem C4_gateway_ordered_fallback_witness :
    InferenceGateway.initEngine (fun _ => none) ["engine-a", "engine-b"] =
      .error .NoEngineAvailable :=
  (C4_gateway_ordered_fallback (fun _ => none) ["engine-a", "engine-b"]).1
    (fun c _ => rfl)

/-- The per-row extraction of variant 2 agrees with the spec's
primary-then-fallback contract. -/
lemma extractV2_row (r : RowV2) :
    (match jsOr (r.summary.map String.trim) (r.text.map String.trim) with
      | some s => if s.length > 0 then some s else none
      | none => (none : Option String)) = pickReviewSpec r := by
  rcases r with ⟨sum?, txt?⟩
  cases sum? with
  | none =>
      cases txt? with
      | none => rfl
      | some t =>
          by_cases ht : t.trim.length > 0 <;> simp [pickReviewSpec, jsOr, ht]
  | some sm =>
      by_cases hs : sm.trim.length > 0
      · cases txt? <;> simp [pickReviewSpec, jsOr, hs]
      · cases txt? with
        | none => simp [pickReviewSpec, jsOr, hs]
        | some t =>
            by_cases ht : t.trim.length > 0 <;> simp [pickReviewSpec, jsOr, hs, ht]

/-- Variant 2's extraction equals the spec's per-row contract mapped over
the rows. -/
lemma extractV2_eq_filterMap (rows : List RowV2) :
    extractV2 rows = rows.filterMap pickReviewSpec := by
  unfold extractV2
  rw [List.filterMap_map]
  apply List.filterMap_congr
  intro r _
  exact extractV2_row r

/-- C8: for every parsed row list, the loaded corpus is exactly, in original
row order, the trimmed primary (`summary`) field when non-empty, else the
trimmed fallback (`text`) field when non-empty, rows contributing neither
being discarded; hence its length is the count of rows passing the filter. -/
theorem C8_corpus_extraction_contract (rows : List RowV2) :
    extractV2 rows = rows.filterMap pickReviewSpec ∧
    (extractV2 rows).length = rows.countP fun r => (pickReviewSpec r).isSome := by
  refine ⟨extractV2_eq_filterMap rows, ?_⟩
  rw [extractV2_eq_filterMap rows]
  exact length_filterMap_countP pickReviewSpec rows

/-- C9: variant 1's corpus load rejects with `corpusEmpty` whenever the rows
are present but every row's field is empty or whitespace after trimming, and
an empty corpus is never a successful load result. -/
theorem C9_corpus_empty_failure :
    (∀ rows : List RowV1, rows ≠ [] →
      (∀ r ∈ rows, ∀ t, r.text = some t → t.trim.length = 0) →
      loadReviewsV1 (some rows) = .error .corpusEmpty) ∧
    (∀ (parsed : Option (List RowV1)) (revs : List String),
      loadReviewsV1 parsed = .ok revs → revs ≠ []) := by
  constructor
  · intro rows hne hws
    have hlen : rows.length > 0 := List.length_pos.mpr hne
    have hext : extractV1 rows = [] := by
      unfold extractV1
      rw [List.filterMap_map]
      rw [List.filterMap_eq_nil]
      intro r hr
      cases ht : r.text with
      | none => simp [Function.comp, ht]
      | some t =>
          have := hws r hr t ht
          simp [Function.comp, ht, this]
    rw [loadReviewsV1, if_pos hlen, hext]
    rfl
  · intro parsed revs h
    exact loadReviewsV1_ok_ne_nil h

/-- C9 witness: a corpus of only whitespace and missing fields is rejected
with `corpusEmpty`. -/
theorem C9_corpus_empty_failure_witness :
    loadReviewsV1 (some [⟨some " "⟩, ⟨none⟩]) = .error .corpusEmpty :=
  C9_corpus_empty_failure.1 [⟨some " "⟩, ⟨none⟩] (by simp)
    (by intro r hr t ht
        simp only [List.mem_cons, List.not_mem_nil, or_false] at hr
        rcases hr with h1 | h2
        · rw [h1] at ht
          simp only [RowV1.mk.injEq, Option.some.injEq] at ht
          rw [← ht]
          with_unfolding_all decide
        · rw [h2] at ht
          exact absurd ht (by simp))

/-- C5: variant 1's startup reaches the ready state (analyze enabled) exactly
when both the corpus load and the model initialization succeed; when either
fails, the specific failure is reported, the controller is not ready, and it
does not proceed with partial readiness. -/
theorem C5_ready_requires_both (parsed : Option (List RowV1)) (modelOutcome : Option Unit) :
    (readyV1 (initApp parsed modelOutcome).1 = true ↔
      ((∃ revs, loadReviewsV1 parsed = .ok revs) ∧ modelOutcome.isSome = true)) ∧
    (∀ e, loadReviewsV1 parsed = .error e →
      (initApp parsed modelOutcome).2 = [.status "Error loading reviews" "error"] ∧
      (initApp parsed modelOutcome).1.modelReady = false) ∧
    (∀ revs, loadReviewsV1 parsed = .ok revs → modelOutcome = none →
      EventV1.status "Error loading model" "error" ∈ (initApp parsed modelOutcome).2 ∧
      readyV1 (initApp parsed modelOutcome).1 = false) := by
  cases hload : loadReviewsV1 parsed with
  | error e =>
      cases modelOutcome with
      | none =>
          refine ⟨?_, ?_, ?_⟩
          · simp [initApp, hload, readyV1]
          · intro e2 _
            simp [initApp, hload]
          · intro revs hok
            exact Except.noConfusion hok
      | some u =>
          refine ⟨?_, ?_, ?_⟩
          · simp [initApp, hload, readyV1]
          · intro e2 _
            simp [initApp, hload]
          · intro revs hok
            exact Except.noConfusion hok
  | ok revs =>
      have hne : revs ≠ [] := loadReviewsV1_ok_ne_nil hload
      cases modelOutcome with
      | none =>
          refine ⟨?_, ?_, ?_⟩
          · simp [initApp, hload, readyV1, initModel]
          · intro e2 herr
            exact Except.noConfusion herr
          · intro revs2 _ _
            constructor
            · simp [initApp, hload, initModel]
            · simp [initApp, hload, readyV1, initModel]
      | some u =>
          refine ⟨?_, ?_, ?_⟩
          · constructor
            · intro _
              exact ⟨⟨revs, rfl⟩, rfl⟩
            · intro _
              simp [initApp, hload, readyV1, initModel, List.length_eq_zero]
              exact hne
          · intro e2 herr
            exact Except.noConfusion herr
          · intro revs2 _ hnone
            exact absurd hnone (by simp)

/-- C5 witness: corpus loaded but model failed — the failure is reported and
the controller is not ready. -/
theorem C5_ready_requires_both_witness :
    EventV1.status "Error loading model" "error" ∈
      (initApp (some [⟨some "good movie"⟩]) none).2 ∧
    readyV1 (initApp (some [⟨some "good movie"⟩]) none).1 = false :=
  (C5_ready_requires_both (some [⟨some "good movie"⟩]) none).2.2
    ["good movie"] (by with_unfolding_all rfl) rfl

/-- C6: an analyze invocation made before the controller is ready is a no-op
that fails with a not-ready notice: the state is unchanged (nothing is
queued), no review is selected, no result is reported, and the classify stage
is never reached.  Variant 1's handler shows the explicit notice; variant 2's
`analyzeRandomReview` rejects silently when no pipeline is present. -/
theorem C6_not_ready_is_noop :
    (∀ (s : StateV1) (rand : ℚ), s.modelReady = false →
      clickStartV1 s rand =
        (s, [.status "Model is still loading. Please wait..." "error"], none)) ∧
    (∀ (s : StateV1) (rand : ℚ) (o : ClassifyOutcome), s.modelReady = false →
      clickHandlerV1 s rand o =
        (s, [.status "Model is still loading. Please wait..." "error"])) ∧
    (∀ (s : StateV2) (rand : ℚ) (o : ClassifyOutcome), s.sentimentPipeline = none →
      analyzeRandomReview s rand o = (s, [])) := by
  refine ⟨?_, ?_, ?_⟩
  · intro s rand h
    rw [clickStartV1, if_pos]
    rw [h]
    rfl
  · intro s rand o h
    rw [clickHandlerV1, clickStartV1,
      if_pos (show (!s.modelReady) = true by rw [h]; rfl)]
  · intro s rand o h
    rw [analyzeRandomReview, analyzeStartV2, if_pos]
    rw [h]
    simp

/-- C6 witness: before the model is ready, a click is rejected with the
not-ready notice and the state does not change. -/
theorem C6_not_ready_is_noop_witness :
    clickHandlerV1 ⟨["r1"], false, false⟩ 0 (.err "never reached") =
      (⟨["r1"], false, false⟩,
       [.status "Model is still loading. Please wait..." "error"]) :=
  C6_not_ready_is_noop.2.1 ⟨["r1"], false, false⟩ 0 (.err "never reached") rfl

/-- C7: when the classify call of an in-flight variant-2 analyze fails
(rejection or empty result list), the call reports an inference-failure
notice, categorizes no sentiment, and unconditionally resets the busy flag so
that a subsequent analyze call passes the guard again. -/
theorem C7_classify_failure_transient (s s1 : StateV2) (rand : ℚ) (rev : String)
    (evs : List EventV2) (o : ClassifyOutcome)
    (hstart : analyzeStartV2 s rand = some (s1, rev, evs))
    (hfail : classifyFailed o = true) :
    (analyzeFinishV2 s1 o).2 = [.statusSet "Analysis error" "error", .errorShown] ∧
    (∀ lbl pct, EventV2.resultShown lbl pct ∉ (analyzeFinishV2 s1 o).2) ∧
    (analyzeFinishV2 s1 o).1.isAnalyzing = false ∧
    (analyzeStartV2 (analyzeFinishV2 s1 o).1 rand).isSome = true := by
  obtain ⟨hb, hp, hlen, hs1, _⟩ := analyzeStartV2_some hstart
  have hevs : (analyzeFinishV2 s1 o).2 =
      [.statusSet "Analysis error" "error", .errorShown] := by
    cases o with
    | ok results =>
        cases results with
        | nil => rfl
        | cons a l => exact absurd hfail (by simp [classifyFailed])
    | err m => rfl
  refine ⟨hevs, ?_, ?_, ?_⟩
  · intro lbl pct
    rw [hevs]
    simp
  · rw [analyzeFinishV2_fst]
  · rw [analyzeFinishV2_fst, analyzeStartV2, if_neg]
    · simp
    · rw [hs1]
      simp [hp, hlen]

/-- C7 witness: a rejected classify call on a live analyze leaves the
controller able to analyze again. -/
theorem C7_classify_failure_transient_witness :
    (analyzeFinishV2 ⟨true, some (), ["ok film"]⟩ (.err "network")).2 =
      [.statusSet "Analysis error" "error", .errorShown] ∧
    (∀ lbl pct, EventV2.resultShown lbl pct ∉
      (analyzeFinishV2 ⟨true, some (), ["ok film"]⟩ (.err "network")).2) ∧
    (analyzeFinishV2 ⟨true, some (), ["ok film"]⟩ (.err "network")).1.isAnalyzing = false ∧
    (analyzeStartV2 (analyzeFinishV2 ⟨true, some (), ["ok film"]⟩ (.err "network")).1
      0).isSome = true :=
  C7_classify_failure_transient ⟨false, some (), ["ok film"]⟩
    ⟨true, some (), ["ok film"]⟩ 0 "ok film"
    [.reviewShown "ok film",
     .statusSet "Analyzing sentiment locally in browser..." "loading"]
    (.err "network") (by with_unfolding_all decide) rfl

/-- C1: the busy flag is set before any work of an analyze invocation begins
and is reset unconditionally at completion, on success or failure; a second
invocation arriving while busy is rejected as a no-op (state unchanged,
nothing emitted, never queued); an invocation after completion passes the
guard again.  Proved for variant 2's `analyzeRandomReview` and for variant
1's click handler. -/
theorem C1_busy_flag_discipline :
    (∀ (s : StateV2) (rand : ℚ) (o : ClassifyOutcome), s.isAnalyzing = true →
      analyzeRandomReview s rand o = (s, [])) ∧
    (∀ (s s1 : StateV2) (rand : ℚ) (rev : String) (evs : List EventV2),
      analyzeStartV2 s rand = some (s1, rev, evs) → s1.isAnalyzing = true) ∧
    (∀ (s : StateV2) (o : ClassifyOutcome),
      (analyzeFinishV2 s o).1.isAnalyzing = false) ∧
    (∀ (s s1 : StateV2) (rand rand2 : ℚ) (rev : String) (evs : List EventV2)
      (o : ClassifyOutcome),
      analyzeStartV2 s rand = some (s1, rev, evs) →
      (analyzeStartV2 (analyzeFinishV2 s1 o).1 rand2).isSome = true) ∧
    (∀ (s : StateV1) (rand : ℚ) (o : ClassifyOutcome),
      s.modelReady = true → s.isAnalyzing = true →
      clickHandlerV1 s rand o = (s, [])) ∧
    (∀ (s : StateV1) (o : ClassifyOutcome),
      (clickFinishV1 s o).1.isAnalyzing = false) := by
  refine ⟨?_, ?_, ?_, ?_, ?_, ?_⟩
  · intro s rand o h
    rw [analyzeRandomReview, analyzeStartV2, if_pos]
    rw [h]
    rfl
  · intro s s1 rand rev evs h
    obtain ⟨_, _, _, hs1, _⟩ := analyzeStartV2_some h
    rw [hs1]
  · intro s o
    rw [analyzeFinishV2_fst]
  · intro s s1 rand rand2 rev evs o h
    obtain ⟨_, hp, hlen, hs1, _⟩ := analyzeStartV2_some h
    rw [analyzeFinishV2_fst, analyzeStartV2, if_neg]
    · simp
    · rw [hs1]
      simp [hp, hlen]
  · intro s rand o hready hbusy
    rw [clickHandlerV1, clickStartV1,
      if_neg (show ¬(!s.modelReady) = true by rw [hready]; simp),
      if_pos (show s.isAnalyzing = true from hbusy)]
  · intro s o
    cases o with
    | ok results => cases results <;> rfl
    | err m => rfl

/-- C1 witness: a call while busy is a no-op, and after the completion of a
started call the guard admits a new call. -/
theorem C1_busy_flag_discipline_witness :
    analyzeRandomReview ⟨true, some (), ["fine"]⟩ 0 (.err "ignored") =
      (⟨true, some (), ["fine"]⟩, []) ∧
    (analyzeStartV2 (analyzeFinishV2 ⟨true, some (), ["fine"]⟩ (.ok [⟨"POSITIVE", 9/10⟩])).1
      0).isSome = true :=
  ⟨C1_busy_flag_discipline.1 ⟨true, some (), ["fine"]⟩ 0 (.err "ignored") rfl,
   C1_busy_flag_discipline.2.2.2.1 ⟨false, some (), ["fine"]⟩
     ⟨true, some (), ["fine"]⟩ 0 0 "fine"
     [.reviewShown "fine",
      .statusSet "Analyzing sentiment locally in browser..." "loading"]
     (.ok [⟨"POSITIVE", 9/10⟩]) (by with_unfolding_all decide)⟩

/-- C10 (implicit): analyze rejects before selecting an index when the loaded
review list is empty, so whenever an invocation proceeds the random index
`Math.floor(Math.random() * reviews.length)` lies within
`[0, reviews.length)`, the selected review is a member of the corpus, and —
since every extracted corpus entry is a non-empty string — the selected
review is defined and non-empty. -/
theorem C10_random_index_in_bounds (rand : ℚ) (h0 : 0 ≤ rand) (h1 : rand < 1) :
    (∀ s : StateV2, s.reviews = [] → analyzeStartV2 s rand = none) ∧
    (∀ (s s1 : StateV2) (rev : String) (evs : List EventV2),
      analyzeStartV2 s rand = some (s1, rev, evs) →
      selectedIdx s.reviews.length rand < s.reviews.length ∧
      rev ∈ s.reviews ∧
      ((∀ t ∈ s.reviews, 0 < t.length) → 0 < rev.length)) ∧
    (∀ s : StateV1, s.reviews = [] → (clickStartV1 s rand).2.2 = none) ∧
    (∀ (s s1 : StateV1) (evs : List EventV1) (rev : String),
      clickStartV1 s rand = (s1, evs, some rev) →
      selectedIdx s.reviews.length rand < s.reviews.length ∧ rev ∈ s.reviews) ∧
    (∀ (rows : List RowV2) (t : String), t ∈ extractV2 rows → 0 < t.length) := by
  refine ⟨?_, ?_, ?_, ?_, ?_⟩
  · intro s hs
    rw [analyzeStartV2, if_pos]
    rw [hs]
    simp
  · intro s s1 rev evs h
    obtain ⟨_, _, hlen, _, hrev⟩ := analyzeStartV2_some h
    have hpos : 0 < s.reviews.length := by
      rcases Nat.eq_zero_or_pos s.reviews.length with hz | hp2
      · rw [hz] at hlen
        exact absurd hlen (by simp)
      · exact hp2
    have hidx : selectedIdx s.reviews.length rand < s.reviews.length :=
      selectedIdx_lt s.reviews.length hpos rand h0 h1
    have hmem : rev ∈ s.reviews := by
      rw [hrev]
      exact getD_mem_of_lt hidx ""
    exact ⟨hidx, hmem, fun hall => hall rev hmem⟩
  · intro s hs
    rw [clickStartV1]
    by_cases hm : (!s.modelReady) = true
    · rw [if_pos hm]
    · rw [if_neg hm]
      by_cases hb : s.isAnalyzing = true
      · rw [if_pos hb]
      · rw [if_neg hb, if_pos]
        rw [hs]
        rfl
  · intro s s1 evs rev h
    by_cases hm : (!s.modelReady) = true
    · rw [clickStartV1, if_pos hm] at h
      simp only [Prod.mk.injEq] at h
      exact absurd h.2.2 (by simp)
    · rw [clickStartV1, if_neg hm] at h
      by_cases hb : s.isAnalyzing = true
      · rw [if_pos hb] at h
        simp only [Prod.mk.injEq] at h
        exact absurd h.2.2 (by simp)
      · rw [if_neg hb] at h
        by_cases hz : (s.reviews.length == 0) = true
        · rw [if_pos hz] at h
          simp only [Prod.mk.injEq] at h
          exact absurd h.2.2 (by simp)
        · rw [if_neg hz] at h
          simp only [Prod.mk.injEq, Option.some.injEq] at h
          have hpos : 0 < s.reviews.length := by
            rcases Nat.eq_zero_or_pos s.reviews.length with hzz | hp2
            · exact absurd (by rw [hzz]; rfl : (s.reviews.length == 0) = true) hz
            · exact hp2
          have hidx : selectedIdx s.reviews.length rand < s.reviews.length :=
            selectedIdx_lt s.reviews.length hpos rand h0 h1
          refine ⟨hidx, ?_⟩
          rw [← h.2.2]
          exact getD_mem_of_lt hidx ""
  · intro rows t ht
    rw [extractV2_eq_filterMap rows] at ht
    obtain ⟨r, _, hpick⟩ := List.mem_filterMap.mp ht
    rcases r with ⟨sum?, txt?⟩
    cases sum? with
    | none =>
        cases txt? with
        | none => exact absurd hpick (by simp [pickReviewSpec])
        | some t2 =>
            by_cases h2 : t2.trim.length > 0
            · rw [pickReviewSpec] at hpick
              simp [h2] at hpick
              rw [← hpick]
              exact h2
            · rw [pickReviewSpec] at hpick
              simp [h2] at hpick
    | some sm =>
        by_cases hsm : sm.trim.length > 0
        · rw [pickReviewSpec] at hpick
          simp [hsm] at hpick
          rw [← hpick]
          exact hsm
        · cases txt? with
          | none =>
              rw [pickReviewSpec] at hpick
              simp [hsm] at hpick
          | some t2 =>
              by_cases h2 : t2.trim.length > 0
              · rw [pickReviewSpec] at hpick
                simp [hsm, h2] at hpick
                rw [← hpick]
                exact h2
              · rw [pickReviewSpec] at hpick
                simp [hsm, h2] at hpick

/-- C10 witness: at a concrete ready state the guard passes and the selected
review is the in-bounds, non-empty corpus entry. -/
theorem C10_random_index_in_bounds_witness :
    selectedIdx 2 (3/4) < 2 ∧ "w2" ∈ ["w1", "w2"] :=
  ((C10_random_index_in_bounds (3/4) (by with_unfolding_all decide)
      (by with_unfolding_all decide)).2.1
    ⟨false, some (), ["w1", "w2"]⟩ ⟨true, some (), ["w1", "w2"]⟩ "w2"
    [.reviewShown "w2",
     .statusSet "Analyzing sentiment locally in browser..." "loading"]
    (by with_unfolding_all decide)).imp id (fun h => h.1)
